import Mathlib

/-!
Verification of the quiz subsystem of the learning-linux repository
(src/quiz_system.py), together with the surrounding progress-update step
of run_lesson (src/lessons.py) and the progress record operations
(src/progress_manager.py, src/linuxtutor.py).

The Python code is shallowly embedded: dictionaries of question records
become a structure of optional fields, exceptions become Except values,
the interactive input stream becomes a list of input events (a line of
text, or an interrupt; end of the list is end-of-input).
-/

/-- ASCII whitespace as recognized by the Python str.strip default
(space, tab, newline, carriage return, vertical tab, form feed). -/
def pyIsSpace (c : Char) : Bool :=
  c = ' ' || c = '\t' || c = '\n' || c = '\r' || c = '\x0b' || c = '\x0c'

/-- Python str.strip(): drop leading and trailing whitespace. -/
def pyStrip (s : String) : String :=
  (((s.toList.dropWhile pyIsSpace).reverse.dropWhile pyIsSpace).reverse).asString

/-- Lower-case one ASCII character, as Python str.lower() does on ASCII. -/
def pyLowerChar (c : Char) : Char :=
  if 'A' ≤ c ∧ c ≤ 'Z' then Char.ofNat (c.toNat + 32) else c

/-- Python str.lower() on ASCII text. -/
def pyLower (s : String) : String :=
  (s.toList.map pyLowerChar).asString

/-- Python str.isdigit() on ASCII text: non-empty and every character a digit. -/
def pyIsdigit (s : String) : Bool :=
  !s.toList.isEmpty && s.toList.all Char.isDigit

/-- Python int() applied to a string of decimal digits. -/
def pyStrToNat (s : String) : Nat :=
  s.toList.foldl (fun n c => n * 10 + (c.toNat - '0'.toNat)) 0

/-- ord applied to the first character, minus ord of the letter a;
the index Python computes for a single-letter multiple-choice answer. -/
def letterIndex (s : String) : Nat :=
  (s.toList.headD 'a').toNat - 'a'.toNat

/-- A Python value stored in a question record field whose type the code
never constrains (the answer field of a true/false or text question). -/
inductive PyVal where
  | bool : Bool → PyVal
  | int : Int → PyVal
  | str : String → PyVal
deriving DecidableEq, Repr

/-- Python equality test between a stored value and a string: values of a
different runtime type are never equal to a string. -/
def PyVal.eqStr : PyVal → String → Bool
  | PyVal.str t, s => t = s
  | _, _ => false

/-- One raw question record: a dictionary whose fields may be absent.
Covers every key quiz_system.py reads from a record. -/
structure QuestionRecord where
  type : Option String := none
  question : Option String := none
  explanation : Option String := none
  options : Option (List String) := none
  correct : Option Int := none
  answer : Option PyVal := none
  alternatives : Option (List String) := none
deriving Repr

/-- Errors raised during construction. The source raises ValueError in
both cases; the message distinguishes a missing required field from an
unrecognized type tag. -/
inductive QuizError where
  | malformed : String → QuizError
  | unknownType : Option String → QuizError
deriving DecidableEq, Repr

/-- A constructed question: one of the four variant classes of
quiz_system.py, with the fields each class stores. -/
inductive Question where
  | multipleChoice (question_text explanation : String)
      (options : List String) (correct_index : Int)
  | trueFalse (question_text explanation : String) (correct_answer : PyVal)
  | commandRecall (question_text explanation : String)
      (correct_answer : PyVal) (alternatives : List String)
  | fillBlank (question_text explanation : String)
      (correct_answer : PyVal) (alternatives : List String)
deriving DecidableEq, Repr

/-- QuizQuestion base-class construction: require question and
explanation keys. -/
def QuizQuestion.baseFields (data : QuestionRecord) :
    Except QuizError (String × String) :=
  match data.question with
  | none => Except.error (QuizError.malformed "Question data must contain 'question' key")
  | some q =>
    match data.explanation with
    | none => Except.error (QuizError.malformed "Question data must contain 'explanation' key")
    | some e => Except.ok (q, e)

/-- MultipleChoiceQuestion construction: base fields, then the options
and correct keys. No range check is performed on the correct index. -/
def MultipleChoiceQuestion.init (data : QuestionRecord) :
    Except QuizError Question := do
  let (q, e) ← QuizQuestion.baseFields data
  match data.options with
  | none => Except.error (QuizError.malformed "MultipleChoiceQuestion requires 'options' key")
  | some opts =>
    match data.correct with
    | none => Except.error (QuizError.malformed "MultipleChoiceQuestion requires 'correct' key")
    | some c => Except.ok (Question.multipleChoice q e opts c)

/-- TrueFalseQuestion construction: base fields, then the answer key. -/
def TrueFalseQuestion.init (data : QuestionRecord) :
    Except QuizError Question := do
  let (q, e) ← QuizQuestion.baseFields data
  match data.answer with
  | none => Except.error (QuizError.malformed "TrueFalseQuestion requires 'answer' key")
  | some a => Except.ok (Question.trueFalse q e a)

/-- CommandRecallQuestion construction (TextAnswerQuestion base): base
fields, the answer key, and alternatives defaulting to the empty list. -/
def CommandRecallQuestion.init (data : QuestionRecord) :
    Except QuizError Question := do
  let (q, e) ← QuizQuestion.baseFields data
  match data.answer with
  | none => Except.error (QuizError.malformed "CommandRecallQuestion must contain 'answer' key")
  | some a => Except.ok (Question.commandRecall q e a (data.alternatives.getD []))

/-- FillBlankQuestion construction (TextAnswerQuestion base): base
fields, the answer key, and alternatives defaulting to the empty list. -/
def FillBlankQuestion.init (data : QuestionRecord) :
    Except QuizError Question := do
  let (q, e) ← QuizQuestion.baseFields data
  match data.answer with
  | none => Except.error (QuizError.malformed "FillBlankQuestion must contain 'answer' key")
  | some a => Except.ok (Question.fillBlank q e a (data.alternatives.getD []))

/-- The QUESTION_TYPES table of Quiz: the constructor for a recognized
type tag, none for an unrecognized or absent tag. -/
def questionClass (t : Option String) :
    Option (QuestionRecord → Except QuizError Question) :=
  match t with
  | some "multiple_choice" => some MultipleChoiceQuestion.init
  | some "true_false" => some TrueFalseQuestion.init
  | some "command_recall" => some CommandRecallQuestion.init
  | some "fill_blank" => some FillBlankQuestion.init
  | _ => none

/-- Construct one question from one record, as the loop body of
Quiz.__init__ does: unknown type tag raises, otherwise the variant
constructor runs. -/
def Quiz.initQuestion (d : QuestionRecord) : Except QuizError Question :=
  match questionClass d.type with
  | none => Except.error (QuizError.unknownType d.type)
  | some f => f d

/-- Quiz.__init__ over the record list: build each question in order;
the first failure aborts the whole construction. -/
def Quiz.init : List QuestionRecord → Except QuizError (List Question)
  | [] => Except.ok []
  | d :: rest => do
    let q ← Quiz.initQuestion d
    let qs ← Quiz.init rest
    Except.ok (q :: qs)

/-- Shared validation of TextAnswerQuestion: strip the input, compare
with the stored answer, then with the alternatives. -/
def TextAnswerQuestion.validate (correct_answer : PyVal)
    (alternatives : List String) (user_input : String) : Bool :=
  let t := pyStrip user_input
  if correct_answer.eqStr t then true
  else if t ∈ alternatives then true
  else false

/-- validate_answer, dispatched on the question variant, following each
class body of quiz_system.py. -/
def validateAnswer : Question → String → Bool
  | Question.multipleChoice _ _ opts correct, user_input =>
    let t := pyLower (pyStrip user_input)
    if t ∈ ["a", "b", "c", "d"] then
      if letterIndex t ≥ opts.length then false
      else decide ((letterIndex t : Int) = correct)
    else if pyIsdigit t then
      if pyStrToNat t ≥ opts.length then false
      else decide ((pyStrToNat t : Int) = correct)
    else false
  | Question.trueFalse _ _ correct_answer, user_input =>
    let t := pyLower (pyStrip user_input)
    if t ∈ ["true", "t", "yes", "y", "1"] then
      decide (correct_answer = PyVal.bool true)
    else if t ∈ ["false", "f", "no", "n", "0"] then
      decide (correct_answer = PyVal.bool false)
    else false
  | Question.commandRecall _ _ correct_answer alternatives, user_input =>
    TextAnswerQuestion.validate correct_answer alternatives user_input
  | Question.fillBlank _ _ correct_answer alternatives, user_input =>
    TextAnswerQuestion.validate correct_answer alternatives user_input

/-- One event on the interactive input surface: a line of text, or an
interrupt signal (Ctrl+C). End of the event list is end-of-input. -/
inductive Inp where
  | line : String → Inp
  | interrupt : Inp
deriving DecidableEq, Repr

/-- One blocking read: none when the surface signals end-of-input or an
interrupt (Python input() raising EOFError or KeyboardInterrupt). -/
def readLine : List Inp → Option (String × List Inp)
  | [] => none
  | Inp.interrupt :: _ => none
  | Inp.line s :: rest => some (s, rest)

/-- The retry prompt replies QuizRunner.run treats as affirmative. -/
def affirmativeReplies : List String := ["", "y", "yes"]

/-- The loop of QuizRunner.run over the remaining questions, carrying
the running attempt counter. Each loop iteration increments the counter,
reads the answer, and on a correct answer reads the continue
acknowledgment before moving on; on a wrong answer it reads the retry
reply and either repeats the question or ends the run with false. A
failed read (end-of-input or interrupt) ends the run with false and the
attempts counted so far, as the except handler of the source does. -/
def runQuestionsAux : List Question → List Inp → Nat → Nat × Bool
  | [], _, attempts => (attempts, true)
  | _ :: _, [], attempts => (attempts + 1, false)
  | _ :: _, Inp.interrupt :: _, attempts => (attempts + 1, false)
  | q :: qs, Inp.line ans :: rest, attempts =>
    if validateAnswer q (pyStrip ans) then
      match rest with
      | [] => (attempts + 1, false)
      | Inp.interrupt :: _ => (attempts + 1, false)
      | Inp.line _ :: rest2 => runQuestionsAux qs rest2 (attempts + 1)
    else
      match rest with
      | [] => (attempts + 1, false)
      | Inp.interrupt :: _ => (attempts + 1, false)
      | Inp.line r :: rest2 =>
        if pyLower (pyStrip r) ∈ affirmativeReplies then
          runQuestionsAux (q :: qs) rest2 (attempts + 1)
        else (attempts + 1, false)

/-- QuizRunner.run: drive the whole quiz against an input script,
returning (total_attempts, completed). -/
def QuizRunner.run (questions : List Question) (inputs : List Inp) : Nat × Bool :=
  runQuestionsAux questions inputs 0

/-- The stats sub-dictionary of a progress record. The quiz counters are
referenced by run_lesson and by the tests of increment_quiz_stats. -/
structure Stats where
  lessons_completed : Nat
  exercises_completed : Nat
  quizzes_completed : Nat
  quiz_total_attempts : Nat
deriving DecidableEq, Repr

/-- A progress record as created and updated by ProgressManager. -/
structure Progress where
  first_time : Bool
  current_level : String
  current_lesson : Option String
  completed_lessons : List String
  stats : Stats
deriving DecidableEq, Repr

/-- ProgressManager.mark_lesson_complete: append the lesson once, bump
the lessons counter once, and clear the current lesson. -/
def ProgressManager.mark_lesson_complete (progress : Progress)
    (lesson_name : String) : Progress :=
  let p :=
    if lesson_name ∈ progress.completed_lessons then progress
    else
      { progress with
        completed_lessons := progress.completed_lessons ++ [lesson_name],
        stats := { progress.stats with
          lessons_completed := progress.stats.lessons_completed + 1 } }
  { p with current_lesson := none }

/-- Modelled from the spec: increment_quiz_stats is called by run_lesson
and exercised by the test suite but is absent from progress_manager.py
in the sources; per the spec it increments the quiz statistics counters,
and per its tests it adds one completed quiz and the given attempts. -/
def ProgressManager.increment_quiz_stats (progress : Progress)
    (attempts : Nat) : Progress :=
  { progress with
    stats := { progress.stats with
      quizzes_completed := progress.stats.quizzes_completed + 1,
      quiz_total_attempts := progress.stats.quiz_total_attempts + attempts } }

/-- LinuxTutor.complete_lesson: same record mutation as
ProgressManager.mark_lesson_complete, performed on the tutor state. -/
def LinuxTutor.complete_lesson (progress : Progress)
    (lesson_name : String) : Progress :=
  let p :=
    if lesson_name ∈ progress.completed_lessons then progress
    else
      { progress with
        completed_lessons := progress.completed_lessons ++ [lesson_name],
        stats := { progress.stats with
          lessons_completed := progress.stats.lessons_completed + 1 } }
  { p with current_lesson := none }

/-- The progress-update step of run_lesson after the quiz runner
returns: only when completed is true does it increment the quiz stats,
and, when a lesson id is present, mark the lesson complete and add the
exercise count; otherwise the progress record is returned untouched. -/
def runLessonAfterQuiz (progress : Progress) (attempts : Nat)
    (completed : Bool) (lesson_id : Option String)
    (exerciseCount : Nat) : Progress :=
  if completed then
    let p1 := ProgressManager.increment_quiz_stats progress attempts
    match lesson_id with
    | some lid =>
      let p2 := LinuxTutor.complete_lesson p1 lid
      { p2 with stats := { p2.stats with
          exercises_completed := p2.stats.exercises_completed + exerciseCount } }
    | none => p1
  else progress

/-- C2: after a quiz run, run_lesson mutates progress only when the run
returned completed = true; a run returning completed = false leaves the
progress record entirely unchanged, so the lesson stays incomplete. -/
theorem runLesson_no_mutation_when_incomplete :
    ∀ (p : Progress) (attempts : Nat) (lesson_id : Option String)
      (exerciseCount : Nat),
      runLessonAfterQuiz p attempts false lesson_id exerciseCount = p ∧
      (runLessonAfterQuiz p attempts false lesson_id
        exerciseCount).completed_lessons = p.completed_lessons := by
  intro p attempts lesson_id exerciseCount
  constructor <;> simp [runLessonAfterQuiz]

/-- C10: true/false answers are compared by identity with the boolean
constants, so a question whose stored answer is not literally a boolean
judges every input incorrect. -/
theorem trueFalse_nonbool_never_correct (qt ex : String) (v : PyVal)
    (h : ∀ b : Bool, v ≠ PyVal.bool b) (s : String) :
    validateAnswer (Question.trueFalse qt ex v) s = false := by
  have h1 := h true
  have h2 := h false
  simp only [validateAnswer]
  split_ifs <;> simp [h1, h2]

/-- Closed instance of trueFalse_nonbool_never_correct: the stored
integer 1 makes every input, even "true", incorrect. -/
theorem trueFalse_nonbool_never_correct_witness :
    (∀ b : Bool, PyVal.int 1 ≠ PyVal.bool b) ∧
    validateAnswer (Question.trueFalse "q" "e" (PyVal.int 1)) "true" = false :=
  ⟨by decide,
   trueFalse_nonbool_never_correct "q" "e" (PyVal.int 1) (by decide) "true"⟩

/-- C5: a text-answer question (command recall or fill blank) accepts an
input exactly when its stripped form equals the stored answer or one of
the alternatives; no case folding is applied. -/
theorem textAnswer_validate_iff (qt ex c : String) (alts : List String)
    (s : String) :
    (validateAnswer (Question.commandRecall qt ex (PyVal.str c) alts) s = true ↔
      (pyStrip s = c ∨ pyStrip s ∈ alts)) ∧
    (validateAnswer (Question.fillBlank qt ex (PyVal.str c) alts) s = true ↔
      (pyStrip s = c ∨ pyStrip s ∈ alts)) := by
  have key : TextAnswerQuestion.validate (PyVal.str c) alts s = true ↔
      (pyStrip s = c ∨ pyStrip s ∈ alts) := by
    simp only [TextAnswerQuestion.validate]
    by_cases h1 : c = pyStrip s
    · simp [PyVal.eqStr, h1]
    · by_cases h2 : pyStrip s ∈ alts
      · simp [PyVal.eqStr, h1, h2]
      · have h3 : ¬pyStrip s = c := fun hh => h1 hh.symm
        simp [PyVal.eqStr, h1, h2, h3]
  exact ⟨key, key⟩

/-- C4: a true/false question with a boolean stored answer accepts an
input exactly when its stripped lower-cased form is one of the five true
synonyms and the stored answer is true, or one of the five false
synonyms and the stored answer is false; the empty string and "maybe"
are always incorrect. -/
theorem trueFalse_validate_iff (qt ex : String) (b : Bool) (s : String) :
    (validateAnswer (Question.trueFalse qt ex (PyVal.bool b)) s = true ↔
      ((pyLower (pyStrip s) ∈ ["true", "t", "yes", "y", "1"] ∧ b = true) ∨
       (pyLower (pyStrip s) ∈ ["false", "f", "no", "n", "0"] ∧ b = false))) ∧
    validateAnswer (Question.trueFalse qt ex (PyVal.bool b)) "" = false ∧
    validateAnswer (Question.trueFalse qt ex (PyVal.bool b)) "maybe" = false := by
  refine ⟨?_, ?_, ?_⟩
  · simp only [validateAnswer]
    by_cases h1 : pyLower (pyStrip s) ∈ (["true", "t", "yes", "y", "1"] : List String)
    · have h1e := h1
      simp only [List.mem_cons, List.not_mem_nil, or_false] at h1e
      have h2 : pyLower (pyStrip s) ∉ (["false", "f", "no", "n", "0"] : List String) := by
        rcases h1e with h | h | h | h | h <;> rw [h] <;> decide
      rw [if_pos h1]
      cases b <;> simp [h1, h2]
    · by_cases h2 : pyLower (pyStrip s) ∈ (["false", "f", "no", "n", "0"] : List String)
      · rw [if_neg h1, if_pos h2]
        cases b <;> simp [h1, h2]
      · simp [h1, h2]
  · cases b <;> rfl
  · cases b <;> rfl

/-- C3: a multiple-choice question accepts an input exactly when its
stripped lower-cased form is a single letter a
 through d whose index is
in range and equals the stored correct index, or a digit string whose
integer value is in range and equals the stored correct index. -/
theorem multipleChoice_validate_iff (qt ex : String) (opts : List String)
    (correct : Int) (s : String) :
    validateAnswer (Question.multipleChoice qt ex opts correct) s = true ↔
      ((pyLower (pyStrip s) ∈ ["a", "b", "c", "d"] ∧
        letterIndex (pyLower (pyStrip s)) < opts.length ∧
        (letterIndex (pyLower (pyStrip s)) : Int) = correct) ∨
       (pyIsdigit (pyLower (pyStrip s)) = true ∧
        pyStrToNat (pyLower (pyStrip s)) < opts.length ∧
        (pyStrToNat (pyLower (pyStrip s)) : Int) = correct)) := by
  simp only [validateAnswer]
  by_cases h1 : pyLower (pyStrip s) ∈ (["a", "b", "c", "d"] : List String)
  · have h1e := h1
    simp only [List.mem_cons, List.not_mem_nil, or_false] at h1e
    have hd : ¬pyIsdigit (pyLower (pyStrip s)) = true := by
      rcases h1e with h | h | h | h <;> rw [h] <;> decide
    rw [if_pos h1]
    by_cases hr : letterIndex (pyLower (pyStrip s)) ≥ opts.length
    · rw [if_pos hr]
      constructor
      · intro h
        exact absurd h (by simp)
      · rintro (⟨_, hlt, _⟩ | ⟨hdig, _, _⟩)
        · exact absurd hlt (by omega)
        · exact absurd hdig hd
    · rw [if_neg hr]
      simp [h1, hd, decide_eq_true_eq]
      intro _
      omega
  · by_cases h2 : pyIsdigit (pyLower (pyStrip s)) = true
    · rw [if_neg h1, if_pos h2]
      by_cases hr : pyStrToNat (pyLower (pyStrip s)) ≥ opts.length
      · rw [if_pos hr]
        constructor
        · intro h
          exact absurd h (by simp)
        · rintro (⟨hmem, _, _⟩ | ⟨_, hlt, _⟩)
          · exact absurd hmem h1
          · exact absurd hlt (by omega)
      · rw [if_neg hr]
        simp [h1, h2, decide_eq_true_eq]
        intro _
        omega
    · simp [h1, h2]

/-- A multiple-choice record whose correct index 5 is out of range for
its two options. -/
def outOfRangeRecord : QuestionRecord :=
  { type := some "multiple_choice", question := some "q",
    explanation := some "e", options := some ["first", "second"],
    correct := some 5 }

/-- C1 counterexample: constructing a MultipleChoice question from a
record whose correct index is out of range does not raise; it produces a
Question, both through the class constructor and through Quiz
construction. -/
theorem multipleChoice_out_of_range_constructs_cex :
    MultipleChoiceQuestion.init outOfRangeRecord =
      Except.ok (Question.multipleChoice "q" "e" ["first", "second"] 5) ∧
    Quiz.init [outOfRangeRecord] =
      Except.ok [Question.multipleChoice "q" "e" ["first", "second"] 5] :=
  ⟨rfl, rfl⟩

/-- C1 amended: construction performs no range check, so a record with
all four required keys present constructs successfully even when the
correct index is out of range; the resulting question then judges every
input incorrect. -/
theorem multipleChoice_out_of_range_accepted (d : QuestionRecord)
    (q e : String) (opts : List String) (c : Int)
    (hq : d.question = some q) (he : d.explanation = some e)
    (ho : d.options = some opts) (hc : d.correct = some c)
    (hrange : c < 0 ∨ (opts.length : Int) ≤ c) :
    MultipleChoiceQuestion.init d =
      Except.ok (Question.multipleChoice q e opts c) ∧
    ∀ s, validateAnswer (Question.multipleChoice q e opts c) s = false := by
  constructor
  · simp only [MultipleChoiceQuestion.init, QuizQuestion.baseFields, hq, he,
      ho, hc]
    rfl
  · intro s
    simp only [validateAnswer]
    by_cases hl : pyLower (pyStrip s) ∈ (["a", "b", "c", "d"] : List String)
    · rw [if_pos hl]
      by_cases hr : letterIndex (pyLower (pyStrip s)) ≥ opts.length
      · rw [if_pos hr]
      · rw [if_neg hr]
        exact decide_eq_false (by rcases hrange with h | h <;> omega)
    · rw [if_neg hl]
      by_cases hd : pyIsdigit (pyLower (pyStrip s)) = true
      · rw [if_pos hd]
        by_cases hr : pyStrToNat (pyLower (pyStrip s)) ≥ opts.length
        · rw [if_pos hr]
        · rw [if_neg hr]
          exact decide_eq_false (by rcases hrange with h | h <;> omega)
      · rw [if_neg hd]

/-- Closed instance of multipleChoice_out_of_range_accepted at the
record with correct index 5 over two options. -/
theorem multipleChoice_out_of_range_accepted_witness :
    outOfRangeRecord.question = some "q" ∧
    outOfRangeRecord.explanation = some "e" ∧
    outOfRangeRecord.options = some ["first", "second"] ∧
    outOfRangeRecord.correct = some 5 ∧
    ((5 : Int) < 0 ∨ (((["first", "second"] : List String).length : Int) ≤ 5)) ∧
    validateAnswer (Question.multipleChoice "q" "e" ["first", "second"] 5)
      "b" = false :=
  ⟨rfl, rfl, rfl, rfl, Or.inr (by norm_num),
   (multipleChoice_out_of_range_accepted outOfRangeRecord "q" "e"
      ["first", "second"] 5 rfl rfl rfl rfl (Or.inr (by norm_num))).2 "b"⟩

/-- A record whose type tag is not one of the four recognized kinds. -/
def recordUnknownType (r : QuestionRecord) : Prop :=
  questionClass r.type = none

/-- A record lacking a required field: the base question or explanation
key, or the variant-specific options, correct, or answer key. -/
def recordMissingRequired (r : QuestionRecord) : Prop :=
  r.question = none ∨ r.explanation = none ∨
  (r.type = some "multiple_choice" ∧ (r.options = none ∨ r.correct = none)) ∨
  ((r.type = some "true_false" ∨ r.type = some "command_recall" ∨
    r.type = some "fill_blank") ∧ r.answer = none)

/-- The QUESTION_TYPES table maps every tag to nothing or to one of the
four variant constructors. -/
theorem questionClass_cases (t : Option String) :
    questionClass t = none ∨
    questionClass t = some MultipleChoiceQuestion.init ∨
    questionClass t = some TrueFalseQuestion.init ∨
    questionClass t = some CommandRecallQuestion.init ∨
    questionClass t = some FillBlankQuestion.init := by
  unfold questionClass
  split <;> simp


/-- Whether a construction result is an error. -/
def exceptIsError {α : Type} : Except QuizError α → Bool
  | Except.error _ => true
  | Except.ok _ => false

/-- An error result is exactly an Except.error value. -/
theorem exceptIsError_iff {α : Type} (x : Except QuizError α) :
    exceptIsError x = true ↔ ∃ e, x = Except.error e := by
  cases x <;> simp [exceptIsError]

/-- A record that is unrecognized or missing a required field fails the
per-record construction step of Quiz. -/
theorem initQuestion_error_of_bad (r : QuestionRecord)
    (h : recordUnknownType r ∨ recordMissingRequired r) :
    ∃ e, Quiz.initQuestion r = Except.error e := by
  rw [← exceptIsError_iff]
  obtain ⟨rt, rq, re, ro, rc, ra, ralt⟩ := r
  rcases h with h | h
  · unfold recordUnknownType at h
    unfold Quiz.initQuestion
    rw [h]
    rfl
  · unfold recordMissingRequired at h
    rcases h with h | h | ⟨htag, hmc⟩ | ⟨htag, hans⟩
    · dsimp only at h
      subst h
      rcases questionClass_cases rt with ht | ht | ht | ht | ht <;>
        (unfold Quiz.initQuestion; rw [ht]; try rfl)
    · dsimp only at h
      subst h
      rcases rq with _ | q <;>
        rcases questionClass_cases rt with ht | ht | ht | ht | ht <;>
          (unfold Quiz.initQuestion; rw [ht]; try rfl)
    · dsimp only at htag hmc
      subst htag
      rcases rq with _ | q
      · rfl
      · rcases re with _ | e
        · rfl
        · rcases hmc with h | h <;> subst h
          · rfl
          · rcases ro with _ | opts <;> rfl
    · dsimp only at htag hans
      subst hans
      rcases htag with h1 | h1 | h1 <;> subst h1 <;>
        rcases rq with _ | q <;> rcases re with _ | e <;> rfl

/-- C9: Quiz construction is all-or-nothing: a record list containing a
record with a missing required field or an unrecognized type tag never
produces a Quiz; construction returns the corresponding error. -/
theorem quiz_construction_all_or_nothing (records : List QuestionRecord)
    (h : ∃ r ∈ records, recordUnknownType r ∨ recordMissingRequired r) :
    ∃ e, Quiz.init records = Except.error e := by
  induction records with
  | nil => simp at h
  | cons d rest ih =>
    rcases h with ⟨r, hr, hbad⟩
    rcases List.mem_cons.mp hr with rfl | hmem
    · obtain ⟨e, he⟩ := initQuestion_error_of_bad r hbad
      refine ⟨e, ?_⟩
      unfold Quiz.init
      rw [he]
      rfl
    · cases hq : Quiz.initQuestion d with
      | error e =>
        refine ⟨e, ?_⟩
        unfold Quiz.init
        rw [hq]
        rfl
      | ok q =>
        obtain ⟨e, he⟩ := ih ⟨r, hmem, hbad⟩
        refine ⟨e, ?_⟩
        unfold Quiz.init
        rw [hq, he]
        rfl

/-- A well-formed true/false record. -/
def cexGoodRecord : QuestionRecord :=
  { type := some "true_false", question := some "q",
    explanation := some "e", answer := some (PyVal.bool true) }

/-- A record carrying an unrecognized type tag. -/
def cexBadRecord : QuestionRecord :=
  { type := some "matching", question := some "q", explanation := some "e" }

/-- Closed instance of quiz_construction_all_or_nothing: one good
record followed by one record with an unknown tag aborts the whole
construction. -/
theorem quiz_construction_all_or_nothing_witness :
    (∃ r ∈ [cexGoodRecord, cexBadRecord],
      recordUnknownType r ∨ recordMissingRequired r) ∧
    ∃ e, Quiz.init [cexGoodRecord, cexBadRecord] = Except.error e :=
  ⟨⟨cexBadRecord, by simp, Or.inl rfl⟩,
   quiz_construction_all_or_nothing [cexGoodRecord, cexBadRecord]
     ⟨cexBadRecord, by simp, Or.inl rfl⟩⟩

/-- One loop iteration on a correct answer: the acknowledgment line is
consumed and the run moves to the next question with one more attempt. -/
theorem runQuestionsAux_correct_step (q : Question) (qs : List Question)
    (ans x : String) (rest2 : List Inp) (a : Nat)
    (h : validateAnswer q (pyStrip ans) = true) :
    runQuestionsAux (q :: qs) (Inp.line ans :: Inp.line x :: rest2) a =
      runQuestionsAux qs rest2 (a + 1) := by
  simp [runQuestionsAux, h]

/-- One loop iteration on a wrong answer followed by an affirmative
retry reply: the same question is presented again with one more
attempt. -/
theorem runQuestionsAux_retry_step (q : Question) (qs : List Question)
    (ans r : String) (rest2 : List Inp) (a : Nat)
    (h : validateAnswer q (pyStrip ans) = false)
    (hr : pyLower (pyStrip r) ∈ affirmativeReplies) :
    runQuestionsAux (q :: qs) (Inp.line ans :: Inp.line r :: rest2) a =
      runQuestionsAux (q :: qs) rest2 (a + 1) := by
  simp [runQuestionsAux, h, hr]

/-- One loop iteration on a wrong answer followed by a non-affirmative
retry reply: the run ends at once with the attempts counted so far. -/
theorem runQuestionsAux_decline_step (q : Question) (qs : List Question)
    (ans r : String) (rest2 : List Inp) (a : Nat)
    (h : validateAnswer q (pyStrip ans) = false)
    (hr : pyLower (pyStrip r) ∉ affirmativeReplies) :
    runQuestionsAux (q :: qs) (Inp.line ans :: Inp.line r :: rest2) a =
      (a + 1, false) := by
  simp [runQuestionsAux, h, hr]

/-- The input script in which each question receives one answer line
followed by one continue-acknowledgment line. -/
def answerScript : List (String × String) → List Inp
  | [] => []
  | (ans, ack) :: rest => Inp.line ans :: Inp.line ack :: answerScript rest

/-- The input script of n wrong answers each followed by an affirmative
retry reply. -/
def retryScript (w r : String) : Nat → List Inp
  | 0 => []
  | n + 1 => Inp.line w :: Inp.line r :: retryScript w r n

/-- A run in which every question is answered correctly on its first
prompt counts one attempt per question and completes. -/
theorem runQuestionsAux_all_correct (qs : List Question)
    (pairs : List (String × String)) (a : Nat)
    (h : List.Forall₂ (fun q p => validateAnswer q (pyStrip p.1) = true)
      qs pairs) :
    runQuestionsAux qs (answerScript pairs) a = (a + qs.length, true) := by
  induction h generalizing a with
  | nil => simp [answerScript, runQuestionsAux]
  | @cons q p qs2 pairs2 h1 h2 ih =>
    obtain ⟨ans, ack⟩ := p
    show runQuestionsAux (q :: qs2)
      (Inp.line ans :: Inp.line ack :: answerScript pairs2) a = _
    rw [runQuestionsAux_correct_step q qs2 ans ack (answerScript pairs2) a h1,
      ih (a + 1)]
    simp only [Prod.mk.injEq, List.length_cons]
    exact ⟨by omega, trivial⟩

/-- Retrying n times on one question before the correct answer
contributes exactly n + 1 attempts for that question. -/
theorem runQuestionsAux_retries (q : Question) (qs : List Question)
    (w r c ack : String) (tail : List Inp) (a n : Nat)
    (hw : validateAnswer q (pyStrip w) = false)
    (hr : pyLower (pyStrip r) ∈ affirmativeReplies)
    (hc : validateAnswer q (pyStrip c) = true) :
    runQuestionsAux (q :: qs)
      (retryScript w r n ++ (Inp.line c :: Inp.line ack :: tail)) a =
      runQuestionsAux qs tail (a + (n + 1)) := by
  induction n generalizing a with
  | zero =>
    show runQuestionsAux (q :: qs) (Inp.line c :: Inp.line ack :: tail) a = _
    rw [runQuestionsAux_correct_step q qs c ack tail a hc]
  | succ n ih =>
    show runQuestionsAux (q :: qs)
      (Inp.line w :: Inp.line r ::
        (retryScript w r n ++ (Inp.line c :: Inp.line ack :: tail))) a = _
    rw [runQuestionsAux_retry_step q qs w r _ a hw hr, ih (a + 1)]
    congr 1
    omega

/-- C6: one attempt is counted per prompt shown: the empty quiz returns
(0, true) at once; a run answering every question correctly on the
first prompt returns one attempt per question and completes; a question
retried n times before its correct answer contributes exactly n + 1 to
the total. -/
theorem quizRunner_attempt_counting :
    (∀ inputs, QuizRunner.run [] inputs = (0, true)) ∧
    (∀ qs pairs,
      List.Forall₂ (fun q p => validateAnswer q (pyStrip p.1) = true)
        qs pairs →
      QuizRunner.run qs (answerScript pairs) = (qs.length, true)) ∧
    (∀ q qs w r c ack tail a n,
      validateAnswer q (pyStrip w) = false →
      pyLower (pyStrip r) ∈ affirmativeReplies →
      validateAnswer q (pyStrip c) = true →
      runQuestionsAux (q :: qs)
        (retryScript w r n ++ (Inp.line c :: Inp.line ack :: tail)) a =
        runQuestionsAux qs tail (a + (n + 1))) := by
  refine ⟨fun inputs => by simp [QuizRunner.run, runQuestionsAux], fun qs pairs h => ?_,
    fun q qs w r c ack tail a n hw hr hc =>
      runQuestionsAux_retries q qs w r c ack tail a n hw hr hc⟩
  have := runQuestionsAux_all_correct qs pairs 0 h
  simpa [QuizRunner.run] using this

/-- Closed instance of quizRunner_attempt_counting: one true/false
question answered correctly on the first prompt gives (1, true). -/
theorem quizRunner_attempt_counting_witness :
    List.Forall₂ (fun q p => validateAnswer q (pyStrip p.1) = true)
      [Question.trueFalse "q" "e" (PyVal.bool true)] [("y", "")] ∧
    QuizRunner.run [Question.trueFalse "q" "e" (PyVal.bool true)]
      (answerScript [("y", "")]) = (1, true) :=
  ⟨List.Forall₂.cons (by decide) List.Forall₂.nil,
   quizRunner_attempt_counting.2.1
     [Question.trueFalse "q" "e" (PyVal.bool true)] [("y", "")]
     (List.Forall₂.cons (by decide) List.Forall₂.nil)⟩

/-- C7: after a wrong answer, exactly the trimmed lower-cased replies
in the set containing the empty string, y and yes loop back to the same
question; any other reply ends the run at once with completed false and
the attempts counted so far, independent of how many questions
remain. -/
theorem retry_prompt_semantics :
    (∀ q qs w r rest a, validateAnswer q (pyStrip w) = false →
      pyLower (pyStrip r) ∈ affirmativeReplies →
      runQuestionsAux (q :: qs) (Inp.line w :: Inp.line r :: rest) a =
        runQuestionsAux (q :: qs) rest (a + 1)) ∧
    (∀ q qs w r rest a, validateAnswer q (pyStrip w) = false →
      pyLower (pyStrip r) ∉ affirmativeReplies →
      runQuestionsAux (q :: qs) (Inp.line w :: Inp.line r :: rest) a =
        (a + 1, false)) ∧
    (∀ q qs w r rest, validateAnswer q (pyStrip w) = false →
      pyLower (pyStrip r) ∉ affirmativeReplies →
      QuizRunner.run (q :: qs) (Inp.line w :: Inp.line r :: rest) =
        (1, false)) :=
  ⟨fun q qs w r rest a hw hr =>
     runQuestionsAux_retry_step q qs w r rest a hw hr,
   fun q qs w r rest a hw hr =>
     runQuestionsAux_decline_step q qs w r rest a hw hr,
   fun q qs w r rest hw hr =>
     runQuestionsAux_decline_step q qs w r rest 0 hw hr⟩

/-- Closed instance of retry_prompt_semantics: a wrong answer and the
reply n on a two-question quiz give (1, false). -/
theorem retry_prompt_semantics_witness :
    validateAnswer (Question.trueFalse "q" "e" (PyVal.bool true))
      (pyStrip "0") = false ∧
    pyLower (pyStrip "n") ∉ affirmativeReplies ∧
    QuizRunner.run [Question.trueFalse "q" "e" (PyVal.bool true),
      Question.trueFalse "q2" "e2" (PyVal.bool false)]
      [Inp.line "0", Inp.line "n"] = (1, false) :=
  ⟨by decide, by decide,
   retry_prompt_semantics.2.2 (Question.trueFalse "q" "e" (PyVal.bool true))
     [Question.trueFalse "q2" "e2" (PyVal.bool false)] "0" "n" []
     (by decide) (by decide)⟩

/-- C8: a failed read, whether at the answer prompt at the head of an
iteration or at the acknowledgment or retry prompt directly after an
answer line, ends the run at once with the attempts counted so far and
completed false, the same result as declining a retry. -/
theorem eof_or_interrupt_ends_run :
    (∀ q qs a inputs, readLine inputs = none →
      runQuestionsAux (q :: qs) inputs a = (a + 1, false)) ∧
    (∀ q qs a ans rest, readLine rest = none →
      runQuestionsAux (q :: qs) (Inp.line ans :: rest) a =
        (a + 1, false)) := by
  constructor
  · intro q qs a inputs h
    cases inputs with
    | nil => simp [runQuestionsAux]
    | cons hd t =>
      cases hd with
      | line s => simp [readLine] at h
      | interrupt => simp [runQuestionsAux]
  · intro q qs a ans rest h
    cases rest with
    | nil => simp [runQuestionsAux]
    | cons hd t =>
      cases hd with
      | line s => simp [readLine] at h
      | interrupt => simp [runQuestionsAux]

/-- Closed instance of eof_or_interrupt_ends_run: an interrupt at the
first answer prompt of a one-question quiz gives (1, false). -/
theorem eof_or_interrupt_ends_run_witness :
    readLine [Inp.interrupt] = none ∧
    runQuestionsAux [Question.trueFalse "q" "e" (PyVal.bool true)]
      [Inp.interrupt] 0 = (1, false) :=
  ⟨rfl, eof_or_interrupt_ends_run.1
    (Question.trueFalse "q" "e" (PyVal.bool true)) [] 0 [Inp.interrupt] rfl⟩
